import Mathlib

/-!
Shallow embedding of `src/pihole6api/conn.py` (class `PiHole6Connection`):
base-URL normalization in `__init__`, the `_authenticate` retry loop,
`_get_headers`, `_do_call` (401 handling and response normalization),
the `get/post/put/delete/patch` wrappers, and `exit`.

Server behaviour (HTTP responses, transport failures) is supplied as
explicit functions; the embedding records a trace of the requests sent
and the authentication runs performed, so that claims about retry
counts, backoff delays and resend behaviour can be stated.
-/

namespace Pihole6

/-- A Python value, as far as the client inspects or produces one:
`None`, booleans, integers, strings, byte strings, lists, and dicts
with string keys. -/
inductive PyVal : Type
  | pnone
  | pbool (b : Bool)
  | pint (n : Int)
  | pstr (s : String)
  | pbytes (s : String)
  | plist (xs : List PyVal)
  | pdict (entries : List (String × PyVal))

/-- Exceptions the embedded code raises or catches, tagged by the Python
class the `except` clauses of `_do_call` dispatch on. `generic` is a plain
`Exception(msg)`; `connError`, `timeout` and `reqError` are
`requests.exceptions.ConnectionError` / `Timeout` / other
`RequestException` (including `HTTPError` from `raise_for_status`);
`typeError` models the `TypeError` Python produces for `raise None`. -/
inductive Exn : Type
  | generic (msg : String)
  | connError (msg : String)
  | timeout (msg : String)
  | reqError (msg : String)
  | typeError (msg : String)
  deriving DecidableEq, Repr

/-- `str(e)` on a captured exception. -/
def exnStr : Exn → String
  | .generic m => m
  | .connError m => m
  | .timeout m => m
  | .reqError m => m
  | .typeError m => m

/-- The effect of `raise last_exception`: raising an actual exception
re-raises it; `raise None` makes Python raise a `TypeError`. -/
def raiseOf : Option Exn → Exn
  | some e => e
  | Option.none => .typeError "exceptions must derive from BaseException"

/-- Python `s.rstrip("/")`: drop every trailing `/` character. -/
def rstripSlash (s : String) : String :=
  String.mk ((s.data.reverse.dropWhile (fun c => c = '/')).reverse)

/-- Line 31 of `conn.py`: `self.base_url = base_url.rstrip("/") + "/api/"`. -/
def normalizeBase (base_url : String) : String :=
  rstripSlash base_url ++ "/api/"

/-- The body of an HTTP 200 reply to the login POST, as far as
`_authenticate` inspects it: either the parsed JSON has no `"session"`
key, or it has a session descriptor with `valid`, `validity`, `sid`,
`csrf` and an optional `message` field. -/
inductive AuthBody : Type
  | noSession
  | session (valid : Bool) (validity : Int) (sid : String) (csrf : String)
      (message : Option String)
  deriving DecidableEq, Repr

/-- Outcome of one `session.post` to the auth endpoint. `ok` is HTTP 200
with a parsed body; `httpError` is a non-200 status, where
`sessionMessage = none` means the body did not parse as JSON,
`some none` means it parsed but carried no `session.message`, and
`some (some m)` means it carried message `m`. `raises` covers any
exception thrown inside the attempt's `try` block (transport failure,
body-parse failure on a 200, missing descriptor keys), all of which land
in `except Exception as e: last_exception = e`. -/
inductive AuthReply : Type
  | ok (body : AuthBody)
  | httpError (status : Nat) (reason : String) (sessionMessage : Option (Option String))
  | raises (e : Exn)
  deriving DecidableEq, Repr

/-- The session data stored on a successful authentication:
`self.session_id`, `self.csrf_token`, `self.validity`. -/
structure Session : Type where
  sid : String
  csrf : String
  validity : Int
  deriving DecidableEq, Repr

/-- How an `_authenticate` call ends: `success` returns after storing the
session; `failure last` is `raise last_exception` after the loop. -/
inductive AuthOutcome : Type
  | success (s : Session)
  | failure (last : Option Exn)
  deriving DecidableEq, Repr

/-- Observable trace of one `_authenticate` call: how many login POSTs
were sent, the `time.sleep` durations in order, and the outcome. -/
structure AuthTrace : Type where
  attempts : Nat
  sleeps : List ℚ
  outcome : AuthOutcome
  deriving DecidableEq, Repr

/-- The synthesized message `f"HTTP {response.status_code}: {response.reason}"`
(lines 100 and 170). -/
def synthHttpMsg (status : Nat) (reason : String) : String :=
  s!"HTTP {status}: {reason}"

/-- The body of one iteration of the retry loop (lines 79-104): returns
the stored session on success, otherwise the exception captured into
`last_exception`. -/
def authAttempt : AuthReply → Except Exn Session
  | .ok (.session valid validity sid csrf _) =>
      if valid ∧ 0 < validity then .ok ⟨sid, csrf, validity⟩
      else .error (.generic "Authentication failed: Invalid session response")
  | .ok .noSession =>
      .error (.generic "Authentication failed: Invalid session response")
  | .httpError status reason sessionMessage =>
      let errorMsg : String :=
        match sessionMessage with
        | Option.none => synthHttpMsg status reason
        | some Option.none => "Unknown error"
        | some (some m) => m
      .error (.generic s!"Authentication failed: {errorMsg}")
  | .raises e => .error e

/-- The retry loop of `_authenticate` (lines 78-114). `server k` is the
reply to the `k`-th login POST (1-indexed). `fuel` is the number of
iterations `range(1, max_retries + 1)` still has to run, so the loop is
entered with `fuel = maxRetries` and `attempt = 1`; when fuel runs out
the loop falls through to `raise last_exception`. On a failed attempt
with attempts remaining it sleeps `retryDelay * 2 ^ (attempt - 1)`. -/
def authLoop (server : Nat → AuthReply) (maxRetries : Nat) (retryDelay : ℚ) :
    Nat → Nat → Option Exn → AuthTrace
  | 0, attempt, last => ⟨attempt - 1, [], .failure last⟩
  | fuel + 1, attempt, _ =>
      match authAttempt (server attempt) with
      | .ok s => ⟨attempt, [], .success s⟩
      | .error e =>
          if attempt < maxRetries then
            let rest := authLoop server maxRetries retryDelay fuel (attempt + 1) (some e)
            ⟨rest.attempts, retryDelay * 2 ^ (attempt - 1) :: rest.sleeps, rest.outcome⟩
          else ⟨attempt, [], .failure (some e)⟩

/-- `_authenticate(self)`: run the retry loop from attempt 1 with
`last_exception = None`. -/
def authenticate (server : Nat → AuthReply) (maxRetries : Nat) (retryDelay : ℚ) :
    AuthTrace :=
  authLoop server maxRetries retryDelay maxRetries 1 Option.none

/-- The mutable attributes of `PiHole6Connection` the embedded methods
touch: `self.session_id`, `self.csrf_token`, `self.validity`, and
whether `self.session.close()` has been called. -/
structure ConnState : Type where
  session_id : Option String
  csrf_token : Option String
  validity : Option Int
  closed : Bool
  deriving DecidableEq, Repr

/-- Store the session attributes on a successful authentication
(lines 86-88); a failed run raises before mutating them. -/
def applyAuth (st : ConnState) (t : AuthTrace) : ConnState :=
  match t.outcome with
  | .success s =>
      { st with session_id := some s.sid, csrf_token := some s.csrf,
                validity := some s.validity }
  | .failure _ => st

/-- Python truthiness test `not self.session_id` on an optional string:
true for `None` and for the empty string. -/
def falsy : Option String → Bool
  | Option.none => true
  | some s => s == ""

/-- The header dict built by `_get_headers`:
`{"X-FTL-SID": sid, "X-FTL-CSRF": csrf}`. -/
structure Headers : Type where
  sid : Option String
  csrf : Option String
  deriving DecidableEq, Repr

/-- `_get_headers` (lines 116-124). `runs i` is the server behaviour of
the `i`-th `_authenticate` run performed inside the enclosing call
(0-indexed), `runIdx` the index of the next run. Returns the headers (or
the exception `_authenticate` raised), the updated state, the
authentication traces produced, and the next run index. -/
def getHeaders (runs : Nat → Nat → AuthReply) (maxRetries : Nat) (retryDelay : ℚ)
    (runIdx : Nat) (st : ConnState) :
    Except Exn Headers × ConnState × List AuthTrace × Nat :=
  if falsy st.session_id || falsy st.csrf_token then
    let t := authenticate (runs runIdx) maxRetries retryDelay
    match t.outcome with
    | .success _ =>
        let st' := applyAuth st t
        (.ok ⟨st'.session_id, st'.csrf_token⟩, st', [t], runIdx + 1)
    | .failure last => (.error (raiseOf last), st, [t], runIdx + 1)
  else
    (.ok ⟨st.session_id, st.csrf_token⟩, st, [], runIdx)

/-- An HTTP response as `_do_call` inspects it: status code, reason
phrase, raw body bytes (modelled as a string), and the result of
`response.json()` — `none` when parsing raises `JSONDecodeError`. -/
structure HResp : Type where
  status : Nat
  reason : String
  content : String
  jsonBody : Option PyVal

/-- Outcome of one `self.session.request(...)` send: a response, or one
of the `requests` exceptions the `except` clauses of `_do_call`
distinguish. -/
inductive SendReply : Type
  | resp (r : HResp)
  | connError (msg : String)
  | timeout (msg : String)
  | reqError (msg : String)

/-- The arguments of one `self.session.request(...)` call: method, URL,
query params, the `json=`, `files=` and `data=` payloads, and the two
authentication headers. -/
structure ReqRecord : Type where
  method : String
  url : String
  params : Option PyVal
  jsonPayload : Option PyVal
  files : Option PyVal
  formData : Option PyVal
  headerSid : Option String
  headerCsrf : Option String

/-- Trace of one `_do_call`: every `session.request` issued, in order,
and every `_authenticate` run performed, in order. -/
structure CallLog : Type where
  sends : List ReqRecord
  auths : List AuthTrace

/-- The ASCII whitespace characters `bytes.strip()` removes:
space, tab, newline, carriage return, vertical tab, form feed. -/
def isPySpace (c : Char) : Bool :=
  c == ' ' || c == '\t' || c == '\n' || c == '\r' || c == '\x0b' || c == '\x0c'

/-- Python `response.content.strip()`: drop leading and trailing ASCII
whitespace. -/
def pyStrip (s : String) : String :=
  String.mk (((s.data.dropWhile isPySpace).reverse.dropWhile isPySpace).reverse)

/-- Lines 166-183 of `_do_call`, applied to the final response: 4xx is
returned as parsed JSON or a synthesized error dict; `raise_for_status`
turns the remaining 4xx/5xx range into an `HTTPError`; then binary
content, empty body, parsed JSON, or raw text. -/
def handleResponse (url : String) (r : HResp) (is_binary : Bool) : Except Exn PyVal :=
  if 400 ≤ r.status ∧ r.status < 500 then
    match r.jsonBody with
    | some v => .ok v
    | Option.none => .ok (.pdict [("error", .pstr (synthHttpMsg r.status r.reason))])
  else if 500 ≤ r.status ∧ r.status < 600 then
    let st := r.status
    let rs := r.reason
    .error (.reqError s!"{st} Server Error: {rs} for url: {url}")
  else if is_binary then
    .ok (.pbytes r.content)
  else if pyStrip r.content = "" then
    .ok (.pdict [])
  else
    match r.jsonBody with
    | some v => .ok v
    | Option.none => .ok (.pstr r.content)

/-- The `except` clauses of `_do_call` (lines 185-193): `requests`
exceptions escaping the `try` block are re-raised as plain `Exception`s
with a prefixed message; anything else propagates unchanged. -/
def catchClauses : Exn → Exn
  | .connError m => .generic ("Connection error: " ++ m)
  | .timeout m => .generic ("Request timed out: " ++ m)
  | .reqError m => .generic ("Request error: " ++ m)
  | e => e

/-- Result of a `_do_call`: the trace, the returned value or raised
exception, and the final connection state. -/
structure DoCallOut : Type where
  log : CallLog
  result : Except Exn PyVal
  state : ConnState

/-- `_do_call` (lines 126-193). `runs i` drives the `i`-th
`_authenticate` run this call performs; `sendOut j` is the outcome of
the `j`-th `session.request` send (0-indexed). The first
`_get_headers()` is evaluated before the `try` block, so an exception
it raises propagates untranslated; every exception originating inside
the `try` block goes through `catchClauses`. A 401 response triggers one
re-authentication, a header rebuild and one identical resend; the final
response is normalized by `handleResponse`. -/
def doCall (runs : Nat → Nat → AuthReply) (sendOut : Nat → SendReply)
    (maxRetries : Nat) (retryDelay : ℚ) (base_url : String) (st : ConnState)
    (method endpoint : String) (params data files : Option PyVal)
    (is_binary : Bool) : DoCallOut :=
  let url := base_url ++ endpoint
  match getHeaders runs maxRetries retryDelay 0 st with
  | (.error e, st1, auths1, _) => ⟨⟨[], auths1⟩, .error e, st1⟩
  | (.ok hdr, st1, auths1, i1) =>
      let request_data := if files.isSome then Option.none else data
      let form_data := if files.isSome then data else Option.none
      let rec1 : ReqRecord :=
        ⟨method, url, params, request_data, files, form_data, hdr.sid, hdr.csrf⟩
      match sendOut 0 with
      | .connError m => ⟨⟨[rec1], auths1⟩, .error (catchClauses (.connError m)), st1⟩
      | .timeout m => ⟨⟨[rec1], auths1⟩, .error (catchClauses (.timeout m)), st1⟩
      | .reqError m => ⟨⟨[rec1], auths1⟩, .error (catchClauses (.reqError m)), st1⟩
      | .resp r1 =>
          if r1.status = 401 then
            let t := authenticate (runs i1) maxRetries retryDelay
            match t.outcome with
            | .failure last =>
                ⟨⟨[rec1], auths1 ++ [t]⟩, .error (catchClauses (raiseOf last)), st1⟩
            | .success _ =>
                let st2 := applyAuth st1 t
                match getHeaders runs maxRetries retryDelay (i1 + 1) st2 with
                | (.error e, st3, auths2, _) =>
                    ⟨⟨[rec1], auths1 ++ [t] ++ auths2⟩, .error (catchClauses e), st3⟩
                | (.ok hdr2, st3, auths2, _) =>
                    let rec2 : ReqRecord :=
                      ⟨method, url, params, request_data, files, form_data,
                       hdr2.sid, hdr2.csrf⟩
                    match sendOut 1 with
                    | .connError m =>
                        ⟨⟨[rec1, rec2], auths1 ++ [t] ++ auths2⟩,
                         .error (catchClauses (.connError m)), st3⟩
                    | .timeout m =>
                        ⟨⟨[rec1, rec2], auths1 ++ [t] ++ auths2⟩,
                         .error (catchClauses (.timeout m)), st3⟩
                    | .reqError m =>
                        ⟨⟨[rec1, rec2], auths1 ++ [t] ++ auths2⟩,
                         .error (catchClauses (.reqError m)), st3⟩
                    | .resp r2 =>
                        ⟨⟨[rec1, rec2], auths1 ++ [t] ++ auths2⟩,
                         (handleResponse url r2 is_binary).mapError catchClauses, st3⟩
          else
            ⟨⟨[rec1], auths1⟩,
             (handleResponse url r1 is_binary).mapError catchClauses, st1⟩

/-- `get(self, endpoint, params=None, is_binary=False)` (line 195). -/
def get (runs : Nat → Nat → AuthReply) (sendOut : Nat → SendReply)
    (maxRetries : Nat) (retryDelay : ℚ) (base_url : String) (st : ConnState)
    (endpoint : String) (params : Option PyVal) (is_binary : Bool) : DoCallOut :=
  doCall runs sendOut maxRetries retryDelay base_url st "GET" endpoint
    params Option.none Option.none is_binary

/-- `post(self, endpoint, data=None, files=None, params=None)` (line 199). -/
def post (runs : Nat → Nat → AuthReply) (sendOut : Nat → SendReply)
    (maxRetries : Nat) (retryDelay : ℚ) (base_url : String) (st : ConnState)
    (endpoint : String) (data files params : Option PyVal) : DoCallOut :=
  doCall runs sendOut maxRetries retryDelay base_url st "POST" endpoint
    params data files false

/-- `put(self, endpoint, data=None, params=None)` (line 203). -/
def put (runs : Nat → Nat → AuthReply) (sendOut : Nat → SendReply)
    (maxRetries : Nat) (retryDelay : ℚ) (base_url : String) (st : ConnState)
    (endpoint : String) (data params : Option PyVal) : DoCallOut :=
  doCall runs sendOut maxRetries retryDelay base_url st "PUT" endpoint
    params data Option.none false

/-- `delete(self, endpoint, params=None, data=None)` (line 207). -/
def delete (runs : Nat → Nat → AuthReply) (sendOut : Nat → SendReply)
    (maxRetries : Nat) (retryDelay : ℚ) (base_url : String) (st : ConnState)
    (endpoint : String) (params data : Option PyVal) : DoCallOut :=
  doCall runs sendOut maxRetries retryDelay base_url st "DELETE" endpoint
    params data Option.none false

/-- `patch(self, endpoint, data=None, params=None)` (line 211). -/
def patch (runs : Nat → Nat → AuthReply) (sendOut : Nat → SendReply)
    (maxRetries : Nat) (retryDelay : ℚ) (base_url : String) (st : ConnState)
    (endpoint : String) (data params : Option PyVal) : DoCallOut :=
  doCall runs sendOut maxRetries retryDelay base_url st "PATCH" endpoint
    params data Option.none false

/-- Result of `exit`: the returned response value, the trace of the
inner `delete("auth")`, and the final state. `exit` has no exception
component: every `Exception` the delete raises is caught. -/
structure ExitOut : Type where
  response : PyVal
  log : CallLog
  state : ConnState

/-- `exit` (lines 215-231): best-effort `self.delete("auth")`, catching
any `Exception` into `{"error": str(e)}`; the `finally` block
unconditionally clears the session attributes and closes the transport
session. -/
def exit (runs : Nat → Nat → AuthReply) (sendOut : Nat → SendReply)
    (maxRetries : Nat) (retryDelay : ℚ) (base_url : String) (st : ConnState) :
    ExitOut :=
  let out := delete runs sendOut maxRetries retryDelay base_url st "auth"
    Option.none Option.none
  let response : PyVal :=
    match out.result with
    | .ok v => v
    | .error e => .pdict [("error", .pstr (exnStr e))]
  ⟨response, out.log,
   { out.state with session_id := Option.none, csrf_token := Option.none,
                    validity := Option.none, closed := true }⟩

/-! ## Authentication lemmas -/

/-- The exception captured when a 200 login reply carries an invalid or
absent session descriptor. -/
def invalidSessionExn : Exn := .generic "Authentication failed: Invalid session response"

/-- A login reply that is HTTP 200 with a session descriptor whose
`valid` field is `false`. -/
def IsInvalidSessionReply (r : AuthReply) : Prop :=
  ∃ validity sid csrf m, r = .ok (.session false validity sid csrf m)

theorem authAttempt_invalid {r : AuthReply} (h : IsInvalidSessionReply r) :
    authAttempt r = .error invalidSessionExn := by
  obtain ⟨v, sid, csrf, m, rfl⟩ := h
  simp [authAttempt, invalidSessionExn]

theorem authLoop_invalid (server : Nat → AuthReply) (maxR : Nat) (delay : ℚ)
    (h : ∀ k, IsInvalidSessionReply (server k)) :
    ∀ fuel attempt last, fuel = maxR + 1 - attempt → 1 ≤ attempt → attempt ≤ maxR →
      authLoop server maxR delay fuel attempt last =
        ⟨maxR,
         (List.range (maxR - attempt)).map (fun i => delay * 2 ^ (attempt - 1 + i)),
         .failure (some invalidSessionExn)⟩ := by
  intro fuel
  induction fuel with
  | zero =>
      intro attempt last hfuel h1 hle
      omega
  | succ f ih =>
      intro attempt last hfuel h1 hle
      rw [authLoop, authAttempt_invalid (h attempt)]
      dsimp only
      by_cases hlt : attempt < maxR
      · rw [if_pos hlt, ih (attempt + 1) (some invalidSessionExn) (by omega) (by omega) (by omega)]
        have hrange : maxR - attempt = (maxR - (attempt + 1)) + 1 := by omega
        have hmap :
            (List.range (maxR - attempt)).map (fun i => delay * 2 ^ (attempt - 1 + i)) =
              delay * 2 ^ (attempt - 1) ::
                (List.range (maxR - (attempt + 1))).map
                  (fun i => delay * 2 ^ (attempt + 1 - 1 + i)) := by
          rw [hrange, List.range_succ_eq_map, List.map_cons, List.map_map]
          refine congrArg₂ _ (by norm_num) (List.map_congr_left ?_)
          intro i _
          have hexp : attempt - 1 + (i + 1) = attempt + 1 - 1 + i := by omega
          simp [Function.comp, hexp]
        rw [hmap]
      · rw [if_neg hlt]
        have : attempt = maxR := by omega
        subst this
        simp

/-- Exactly `maxRetries` login POSTs are sent when every reply is an
invalid-session 200, with the exponential-backoff sleep schedule and the
final `raise`. -/
theorem authenticate_all_invalid (server : Nat → AuthReply) (maxR : Nat) (delay : ℚ)
    (hmax : 1 ≤ maxR) (h : ∀ k, IsInvalidSessionReply (server k)) :
    authenticate server maxR delay =
      ⟨maxR, (List.range (maxR - 1)).map (fun k => delay * 2 ^ k),
       .failure (some invalidSessionExn)⟩ := by
  rw [authenticate, authLoop_invalid server maxR delay h maxR 1 Option.none
    (by omega) le_rfl hmax]
  have hmap : (List.range (maxR - 1)).map (fun i => delay * 2 ^ (1 - 1 + i)) =
      (List.range (maxR - 1)).map (fun k => delay * 2 ^ k) :=
    List.map_congr_left (by intro i _; norm_num)
  rw [hmap]

/-! ## C1 — base URL normalization -/

/-- C1 counterexample: constructing with base URL `"http://pi.hole/api/"`
does not yield the same stored base URL as constructing with
`"http://pi.hole"` — the former gets a second `/api/` appended. -/
theorem C1_base_url_counterexample :
    ¬ (normalizeBase "http://pi.hole/api/" = normalizeBase "http://pi.hole") := by
  decide

/-- C1 (amended): `"http://pi.hole"` and `"http://pi.hole/"` both
normalize to `"http://pi.hole/api/"`, but `"http://pi.hole/api/"`
normalizes to `"http://pi.hole/api/api/"`: trailing slashes are stripped
and `"/api/"` is appended unconditionally, so the stored base URL always
ends in `"/api/"` but an existing API-root segment is not deduplicated. -/
theorem C1_base_url_normalization_amended :
    normalizeBase "http://pi.hole" = "http://pi.hole/api/" ∧
    normalizeBase "http://pi.hole/" = "http://pi.hole/api/" ∧
    normalizeBase "http://pi.hole/api/" = "http://pi.hole/api/api/" ∧
    ∀ s : String, ∃ p : String, normalizeBase s = p ++ "/api/" :=
  ⟨by decide, by decide, by decide, fun s => ⟨rstripSlash s, rfl⟩⟩

/-! ## C2 — retry count, backoff schedule, final raise -/

/-- C2: when every login reply is HTTP 200 with `valid: false`,
`_authenticate` performs exactly `maxRetries` attempts, sleeps
`retryDelay * 2 ^ (k - 1)` seconds between attempt `k` and attempt
`k + 1` (entry `k - 1` of the sleeps list, for `k = 1 .. maxRetries - 1`),
and then raises the last captured failure, the invalid-session
exception. -/
theorem C2_auth_retries_and_backoff (server : Nat → AuthReply) (maxR : Nat)
    (delay : ℚ) (hmax : 1 ≤ maxR) (h : ∀ k, IsInvalidSessionReply (server k)) :
    authenticate server maxR delay =
      ⟨maxR, (List.range (maxR - 1)).map (fun k => delay * 2 ^ k),
       .failure (some invalidSessionExn)⟩ :=
  authenticate_all_invalid server maxR delay hmax h

/-- C2 witness: three retries at base delay 1 give three attempts,
sleeps `[1, 2]`, and the invalid-session failure. -/
theorem C2_witness :
    (1 ≤ 3 ∧
      authenticate (fun _ => .ok (.session false 300 "s" "c" Option.none)) 3 1 =
        ⟨3, (List.range 2).map (fun k => (1 : ℚ) * 2 ^ k),
         .failure (some invalidSessionExn)⟩) ∧
    authenticate (fun _ => .ok (.session false 300 "s" "c" Option.none)) 3 1 =
      ⟨3, [1, 2], .failure (some invalidSessionExn)⟩ := by
  have h := C2_auth_retries_and_backoff
    (fun _ => .ok (.session false 300 "s" "c" Option.none)) 3 1 (by omega)
    (fun k => ⟨300, "s", "c", Option.none, rfl⟩)
  refine ⟨⟨by omega, h⟩, ?_⟩
  rw [h]
  norm_num [List.range_succ]

/-! ## C8 — max_retries = 0 -/

/-- C8: with `max_retries = 0` the loop body never runs — no login POST
is sent whatever the server would answer — and control falls through to
`raise last_exception` with `last_exception` still `None`, which Python
turns into a `TypeError`, so construction fails even for valid
credentials. -/
theorem C8_zero_retries_raise_none :
    ∀ (server : Nat → AuthReply) (delay : ℚ),
      authenticate server 0 delay = ⟨0, [], .failure Option.none⟩ ∧
      raiseOf Option.none = .typeError "exceptions must derive from BaseException" :=
  fun _ _ => ⟨rfl, rfl⟩

/-! ## Call-path lemmas -/

theorem authenticate_first_valid (server : Nat → AuthReply) (maxR : Nat) (delay : ℚ)
    (v : Int) (sid csrf : String) (m : Option String) (hmax : 1 ≤ maxR)
    (h1 : server 1 = .ok (.session true v sid csrf m)) (hv : 0 < v) :
    authenticate server maxR delay = ⟨1, [], .success ⟨sid, csrf, v⟩⟩ := by
  cases maxR with
  | zero => omega
  | succ f =>
      rw [authenticate, authLoop, h1]
      simp [authAttempt, hv]

theorem getHeaders_live (runs : Nat → Nat → AuthReply) (maxR : Nat) (delay : ℚ)
    (i : Nat) (st : ConnState) (hsid : falsy st.session_id = false)
    (hcsrf : falsy st.csrf_token = false) :
    getHeaders runs maxR delay i st = (.ok ⟨st.session_id, st.csrf_token⟩, st, [], i) := by
  rw [getHeaders, hsid, hcsrf]
  simp

theorem getHeaders_auth_first_valid (runs : Nat → Nat → AuthReply) (maxR : Nat)
    (delay : ℚ) (i : Nat) (st : ConnState) (v : Int) (sid csrf : String)
    (m : Option String) (hmax : 1 ≤ maxR)
    (hcond : (falsy st.session_id || falsy st.csrf_token) = true)
    (h1 : runs i 1 = .ok (.session true v sid csrf m)) (hv : 0 < v) :
    getHeaders runs maxR delay i st =
      (.ok ⟨some sid, some csrf⟩,
       { st with session_id := some sid, csrf_token := some csrf, validity := some v },
       [⟨1, [], .success ⟨sid, csrf, v⟩⟩], i + 1) := by
  rw [getHeaders, hcond,
    authenticate_first_valid (runs i) maxR delay v sid csrf m hmax h1 hv]
  simp [applyAuth]

theorem getHeaders_auth_all_invalid (runs : Nat → Nat → AuthReply) (maxR : Nat)
    (delay : ℚ) (i : Nat) (st : ConnState) (hmax : 1 ≤ maxR)
    (hcond : (falsy st.session_id || falsy st.csrf_token) = true)
    (h : ∀ k, IsInvalidSessionReply (runs i k)) :
    getHeaders runs maxR delay i st =
      (.error invalidSessionExn, st,
       [⟨maxR, (List.range (maxR - 1)).map (fun k => delay * 2 ^ k),
         .failure (some invalidSessionExn)⟩], i + 1) := by
  rw [getHeaders, hcond, authenticate_all_invalid (runs i) maxR delay hmax h]
  simp [raiseOf]

theorem handleResponse_4xx (url : String) (r : HResp) (b : Bool)
    (h4 : 400 ≤ r.status) (h5 : r.status < 500) :
    handleResponse url r b =
      .ok (r.jsonBody.getD (.pdict [("error", .pstr (synthHttpMsg r.status r.reason))])) := by
  rw [handleResponse, if_pos ⟨h4, h5⟩]
  cases r.jsonBody <;> simp

theorem handleResponse_success_binary (url : String) (r : HResp)
    (h4 : r.status < 400) :
    handleResponse url r true = .ok (.pbytes r.content) := by
  rw [handleResponse, if_neg (by omega), if_neg (by omega)]
  simp

theorem handleResponse_success_nonbinary (url : String) (r : HResp)
    (h4 : r.status < 400) :
    handleResponse url r false =
      .ok (if pyStrip r.content = "" then .pdict []
           else r.jsonBody.getD (.pstr r.content)) := by
  rw [handleResponse, if_neg (by omega), if_neg (by omega)]
  by_cases hb : pyStrip r.content = ""
  · rw [if_pos hb]
    simp [hb]
  · rw [if_neg hb]
    cases r.jsonBody <;> simp [hb]

/-- A `_do_call` on a live session whose first send comes back with a
non-401 response performs exactly one send, no authentication run, and
returns the normalized response. -/
theorem doCall_live_non401 (runs : Nat → Nat → AuthReply) (sendOut : Nat → SendReply)
    (maxR : Nat) (delay : ℚ) (base : String) (st : ConnState)
    (method ep : String) (params data files : Option PyVal) (b : Bool) (r : HResp)
    (hsid : falsy st.session_id = false) (hcsrf : falsy st.csrf_token = false)
    (hsend : sendOut 0 = .resp r) (h401 : r.status ≠ 401) :
    doCall runs sendOut maxR delay base st method ep params data files b =
      ⟨⟨[⟨method, base ++ ep, params, (if files.isSome then Option.none else data),
          files, (if files.isSome then data else Option.none),
          st.session_id, st.csrf_token⟩], []⟩,
       (handleResponse (base ++ ep) r b).mapError catchClauses, st⟩ := by
  rw [doCall, getHeaders_live runs maxR delay 0 st hsid hcsrf]
  dsimp only
  rw [hsend]
  dsimp only
  rw [if_neg h401]

/-! ## C3 — single re-authentication and resend on 401 -/

/-- C3: on a live session, when the first send returns 401 and the
triggered re-authentication succeeds on its first attempt,
`_do_call` performs exactly one authentication run and exactly two
sends — the second identical to the first in method, URL, params, JSON
payload, files and form data — and when the second response is again
401 it is surfaced through the normal 4xx normalization (parsed body or
synthesized error dict), with no third send. -/
theorem C3_reauth_once_on_401 (runs : Nat → Nat → AuthReply) (sendOut : Nat → SendReply)
    (maxR : Nat) (delay : ℚ) (base : String) (st : ConnState)
    (method ep : String) (params data files : Option PyVal) (b : Bool)
    (r1 r2 : HResp) (v : Int) (sid csrf : String) (m : Option String)
    (hsid : falsy st.session_id = false) (hcsrf : falsy st.csrf_token = false)
    (hsend0 : sendOut 0 = .resp r1) (h401a : r1.status = 401)
    (hsend1 : sendOut 1 = .resp r2) (h401b : r2.status = 401)
    (hmax : 1 ≤ maxR) (hauth : runs 0 1 = .ok (.session true v sid csrf m))
    (hv : 0 < v) (hsid2 : (sid == "") = false) (hcsrf2 : (csrf == "") = false) :
    ∃ rec1 rec2 : ReqRecord,
      (doCall runs sendOut maxR delay base st method ep params data files b).log.sends
          = [rec1, rec2] ∧
      rec2.method = rec1.method ∧ rec2.url = rec1.url ∧
      rec2.params = rec1.params ∧ rec2.jsonPayload = rec1.jsonPayload ∧
      rec2.files = rec1.files ∧ rec2.formData = rec1.formData ∧
      (doCall runs sendOut maxR delay base st method ep params data files b).log.auths.length
          = 1 ∧
      (doCall runs sendOut maxR delay base st method ep params data files b).result
          = .ok (r2.jsonBody.getD
              (.pdict [("error", .pstr (synthHttpMsg r2.status r2.reason))])) := by
  rw [doCall, getHeaders_live runs maxR delay 0 st hsid hcsrf]
  dsimp only
  rw [hsend0]
  dsimp only
  rw [if_pos h401a,
    authenticate_first_valid (runs 0) maxR delay v sid csrf m hmax hauth hv]
  dsimp only [applyAuth]
  rw [getHeaders_live runs maxR delay (0 + 1)
    ⟨some sid, some csrf, some v, st.closed⟩
    (show falsy (some sid) = false from hsid2)
    (show falsy (some csrf) = false from hcsrf2)]
  dsimp only
  rw [hsend1]
  dsimp only
  rw [handleResponse_4xx (base ++ ep) r2 b (by omega) (by omega)]
  refine ⟨_, _, rfl, rfl, rfl, rfl, rfl, rfl, rfl, rfl, rfl⟩

/-- C3 witness: both sends answer 401 with a parsed error body and the
re-authentication succeeds; two identical sends, one auth run, and the
second 401's body is returned. -/
theorem C3_witness :
    ∃ rec1 rec2 : ReqRecord,
      (doCall (fun _ _ => .ok (.session true 300 "sid2" "csrf2" Option.none))
          (fun _ => .resp ⟨401, "Unauthorized", "body",
            some (.pdict [("error", .pstr "expired")])⟩)
          3 1 "http://pi.hole/api/" ⟨some "S", some "C", some 100, false⟩
          "GET" "stats/summary" Option.none Option.none Option.none false).log.sends
        = [rec1, rec2] ∧
      rec2.method = rec1.method ∧ rec2.url = rec1.url ∧
      rec2.params = rec1.params ∧ rec2.jsonPayload = rec1.jsonPayload ∧
      rec2.files = rec1.files ∧ rec2.formData = rec1.formData ∧
      (doCall (fun _ _ => .ok (.session true 300 "sid2" "csrf2" Option.none))
          (fun _ => .resp ⟨401, "Unauthorized", "body",
            some (.pdict [("error", .pstr "expired")])⟩)
          3 1 "http://pi.hole/api/" ⟨some "S", some "C", some 100, false⟩
          "GET" "stats/summary" Option.none Option.none Option.none false).log.auths.length
        = 1 ∧
      (doCall (fun _ _ => .ok (.session true 300 "sid2" "csrf2" Option.none))
          (fun _ => .resp ⟨401, "Unauthorized", "body",
            some (.pdict [("error", .pstr "expired")])⟩)
          3 1 "http://pi.hole/api/" ⟨some "S", some "C", some 100, false⟩
          "GET" "stats/summary" Option.none Option.none Option.none false).result
        = .ok (Option.getD (some (.pdict [("error", .pstr "expired")]))
            (.pdict [("error", .pstr (synthHttpMsg 401 "Unauthorized"))])) :=
  C3_reauth_once_on_401 _ _ 3 1 "http://pi.hole/api/"
    ⟨some "S", some "C", some 100, false⟩ "GET" "stats/summary"
    Option.none Option.none Option.none false
    ⟨401, "Unauthorized", "body", some (.pdict [("error", .pstr "expired")])⟩
    ⟨401, "Unauthorized", "body", some (.pdict [("error", .pstr "expired")])⟩
    300 "sid2" "csrf2" Option.none rfl rfl rfl rfl rfl rfl (by omega) rfl
    (by omega) rfl rfl

/-! ## C4 — 4xx responses are returned, not raised -/

/-- C4: a final response with status in `[400, 500)` does not raise:
the call returns the parsed JSON body, or, when the body does not
parse, the single-entry dict `{"error": "HTTP <code>: <reason>"}`. -/
theorem C4_4xx_returned_not_raised (runs : Nat → Nat → AuthReply)
    (sendOut : Nat → SendReply) (maxR : Nat) (delay : ℚ) (base : String)
    (st : ConnState) (method ep : String) (params data files : Option PyVal)
    (b : Bool) (r : HResp)
    (hsid : falsy st.session_id = false) (hcsrf : falsy st.csrf_token = false)
    (hsend : sendOut 0 = .resp r) (h4 : 400 ≤ r.status) (h5 : r.status < 500)
    (hn : r.status ≠ 401) :
    (doCall runs sendOut maxR delay base st method ep params data files b).result
      = .ok (r.jsonBody.getD
          (.pdict [("error", .pstr (synthHttpMsg r.status r.reason))])) := by
  rw [doCall_live_non401 runs sendOut maxR delay base st method ep params data files b
    r hsid hcsrf hsend hn]
  dsimp only
  rw [handleResponse_4xx (base ++ ep) r b h4 h5]
  rfl

/-- C4 witness: the spec's 422 example — a 422 response with JSON body
`{"error": "bad param"}` is returned as that mapping, no exception. -/
theorem C4_witness :
    (doCall (fun _ _ => .raises (.generic "unused")) (fun _ => .resp
        ⟨422, "Unprocessable Entity", "x", some (.pdict [("error", .pstr "bad param")])⟩)
        3 1 "http://pi.hole/api/" ⟨some "S", some "C", some 100, false⟩
        "POST" "config" Option.none Option.none Option.none false).result
      = .ok (.pdict [("error", .pstr "bad param")]) := by
  have h := C4_4xx_returned_not_raised (fun _ _ => .raises (.generic "unused"))
    (fun _ => .resp ⟨422, "Unprocessable Entity", "x",
      some (.pdict [("error", .pstr "bad param")])⟩)
    3 1 "http://pi.hole/api/" ⟨some "S", some "C", some 100, false⟩
    "POST" "config" Option.none Option.none Option.none false
    ⟨422, "Unprocessable Entity", "x", some (.pdict [("error", .pstr "bad param")])⟩
    rfl rfl rfl (by decide) (by decide) (by decide)
  simpa using h

/-! ## C5 — success-path normalization without binary -/

/-- C5: a successful (2xx/3xx) final response without `is_binary`
never raises: a blank or whitespace-only body yields the empty dict, a
JSON body yields its parse, and anything else yields the raw text. -/
theorem C5_success_normalization (runs : Nat → Nat → AuthReply)
    (sendOut : Nat → SendReply) (maxR : Nat) (delay : ℚ) (base : String)
    (st : ConnState) (method ep : String) (params data files : Option PyVal)
    (r : HResp)
    (hsid : falsy st.session_id = false) (hcsrf : falsy st.csrf_token = false)
    (hsend : sendOut 0 = .resp r) (h2 : 200 ≤ r.status) (h4 : r.status < 400) :
    (doCall runs sendOut maxR delay base st method ep params data files false).result
      = .ok (if pyStrip r.content = "" then .pdict []
             else r.jsonBody.getD (.pstr r.content)) := by
  rw [doCall_live_non401 runs sendOut maxR delay base st method ep params data files
    false r hsid hcsrf hsend (by omega)]
  dsimp only
  rw [handleResponse_success_nonbinary (base ++ ep) r h4]
  rfl

/-- C5 witness: the spec's example — a 200 response with an empty body
returns the empty mapping. -/
theorem C5_witness :
    (doCall (fun _ _ => .raises (.generic "unused"))
        (fun _ => .resp ⟨200, "OK", "", Option.none⟩)
        3 1 "http://pi.hole/api/" ⟨some "S", some "C", some 100, false⟩
        "GET" "stats/summary" Option.none Option.none Option.none false).result
      = .ok (.pdict []) := by
  have h := C5_success_normalization (fun _ _ => .raises (.generic "unused"))
    (fun _ => .resp ⟨200, "OK", "", Option.none⟩)
    3 1 "http://pi.hole/api/" ⟨some "S", some "C", some 100, false⟩
    "GET" "stats/summary" Option.none Option.none Option.none
    ⟨200, "OK", "", Option.none⟩ rfl rfl rfl (by decide) (by decide)
  rw [h, if_pos]
  decide

/-! ## C6 — binary success returns raw bytes -/

/-- C6: a successful (2xx/3xx) final response with `is_binary` set
returns the raw body bytes unmodified, with no parsing, whatever the
body contains and whatever `response.json()` would have produced. -/
theorem C6_binary_returns_raw_bytes (runs : Nat → Nat → AuthReply)
    (sendOut : Nat → SendReply) (maxR : Nat) (delay : ℚ) (base : String)
    (st : ConnState) (method ep : String) (params data files : Option PyVal)
    (r : HResp)
    (hsid : falsy st.session_id = false) (hcsrf : falsy st.csrf_token = false)
    (hsend : sendOut 0 = .resp r) (h2 : 200 ≤ r.status) (h4 : r.status < 400) :
    (doCall runs sendOut maxR delay base st method ep params data files true).result
      = .ok (.pbytes r.content) := by
  rw [doCall_live_non401 runs sendOut maxR delay base st method ep params data files
    true r hsid hcsrf hsend (by omega)]
  dsimp only
  rw [handleResponse_success_binary (base ++ ep) r h4]
  rfl

/-- C6 witness: a 200 response whose body starts with the ZIP magic
bytes comes back exactly as those bytes. -/
theorem C6_witness :
    (doCall (fun _ _ => .raises (.generic "unused"))
        (fun _ => .resp ⟨200, "OK", "PK\x03\x04teleporter", Option.none⟩)
        3 1 "http://pi.hole/api/" ⟨some "S", some "C", some 100, false⟩
        "GET" "teleporter" Option.none Option.none Option.none true).result
      = .ok (.pbytes "PK\x03\x04teleporter") := by
  have h := C6_binary_returns_raw_bytes (fun _ _ => .raises (.generic "unused"))
    (fun _ => .resp ⟨200, "OK", "PK\x03\x04teleporter", Option.none⟩)
    3 1 "http://pi.hole/api/" ⟨some "S", some "C", some 100, false⟩
    "GET" "teleporter" Option.none Option.none Option.none
    ⟨200, "OK", "PK\x03\x04teleporter", Option.none⟩ rfl rfl rfl (by decide) (by decide)
  exact h

/-! ## C7 — exit never raises, clears state, is idempotent -/

/-- C7: `exit` is total — whatever the logout DELETE does (any
response, transport failure, or failed re-authentication), the raised
exception is captured into an `{"error": str(e)}` mapping rather than
propagated — and the `finally` block unconditionally clears the session
attributes and closes the transport. A second `exit`, with any server
behaviour, again produces no error and leaves the state cleared; at the
start of that second call there is no live session. -/
theorem C7_exit_total_clears_idempotent :
    ∀ (runs runs2 : Nat → Nat → AuthReply) (sendOut sendOut2 : Nat → SendReply)
      (maxR : Nat) (delay : ℚ) (base : String) (st : ConnState),
      (exit runs sendOut maxR delay base st).state.session_id = Option.none ∧
      (exit runs sendOut maxR delay base st).state.csrf_token = Option.none ∧
      (exit runs sendOut maxR delay base st).state.validity = Option.none ∧
      (exit runs sendOut maxR delay base st).state.closed = true ∧
      (∀ e : Exn,
        (delete runs sendOut maxR delay base st "auth" Option.none Option.none).result
            = .error e →
          (exit runs sendOut maxR delay base st).response
            = .pdict [("error", .pstr (exnStr e))]) ∧
      (exit runs2 sendOut2 maxR delay base
          (exit runs sendOut maxR delay base st).state).state.session_id = Option.none ∧
      (exit runs2 sendOut2 maxR delay base
          (exit runs sendOut maxR delay base st).state).state.csrf_token = Option.none ∧
      (exit runs2 sendOut2 maxR delay base
          (exit runs sendOut maxR delay base st).state).state.validity = Option.none ∧
      (exit runs2 sendOut2 maxR delay base
          (exit runs sendOut maxR delay base st).state).state.closed = true := by
  intro runs runs2 sendOut sendOut2 maxR delay base st
  refine ⟨rfl, rfl, rfl, rfl, ?_, rfl, rfl, rfl, rfl⟩
  intro e he
  rw [exit]
  dsimp only
  rw [he]

/-- C7 witness: with a transport that fails every send, `exit` still
returns — the connection error is captured into the error mapping — and
the state is cleared and the transport closed. -/
theorem C7_witness :
    (exit (fun _ _ => .raises (.generic "down")) (fun _ => .connError "boom")
        3 1 "http://pi.hole/api/" ⟨some "S", some "C", some 100, false⟩).response
      = .pdict [("error", .pstr "Connection error: boom")] ∧
    (exit (fun _ _ => .raises (.generic "down")) (fun _ => .connError "boom")
        3 1 "http://pi.hole/api/" ⟨some "S", some "C", some 100, false⟩).state.session_id
      = Option.none ∧
    (exit (fun _ _ => .raises (.generic "down")) (fun _ => .connError "boom")
        3 1 "http://pi.hole/api/" ⟨some "S", some "C", some 100, false⟩).state.closed
      = true := by
  have h := C7_exit_total_clears_idempotent (fun _ _ => .raises (.generic "down"))
    (fun _ _ => .raises (.generic "down")) (fun _ => .connError "boom")
    (fun _ => .connError "boom") 3 1 "http://pi.hole/api/"
    ⟨some "S", some "C", some 100, false⟩
  exact ⟨h.2.2.2.2.1 (.generic "Connection error: boom") rfl, h.1, h.2.2.2.1⟩

/-! ## C9 — a failed 401 re-authentication propagates to the caller -/

/-- C9: when the first response to an authenticated `get` is 401 and
the triggered re-authentication exhausts its retries (every login reply
invalid), the authentication exception itself propagates out of the
call — the caller sees `Authentication failed: Invalid session
response`, not a normalized response — and the request is not resent. -/
theorem C9_reauth_failure_propagates (runs : Nat → Nat → AuthReply)
    (sendOut : Nat → SendReply) (maxR : Nat) (delay : ℚ) (base : String)
    (st : ConnState) (ep : String) (params : Option PyVal) (b : Bool) (r1 : HResp)
    (hsid : falsy st.session_id = false) (hcsrf : falsy st.csrf_token = false)
    (hsend : sendOut 0 = .resp r1) (h401 : r1.status = 401)
    (hmax : 1 ≤ maxR) (hinv : ∀ k, IsInvalidSessionReply (runs 0 k)) :
    (get runs sendOut maxR delay base st ep params b).result
        = .error invalidSessionExn ∧
    (get runs sendOut maxR delay base st ep params b).log.sends.length = 1 := by
  rw [get, doCall, getHeaders_live runs maxR delay 0 st hsid hcsrf]
  dsimp only
  rw [hsend]
  dsimp only
  rw [if_pos h401, authenticate_all_invalid (runs 0) maxR delay hmax hinv]
  exact ⟨rfl, rfl⟩

/-- C9 witness: a 401 first response and a server that always answers
the login POST with `valid: false` make `get` surface the
authentication failure after a single send. -/
theorem C9_witness :
    (get (fun _ _ => .ok (.session false 0 "" "" Option.none))
        (fun _ => .resp ⟨401, "Unauthorized", "", Option.none⟩)
        3 1 "http://pi.hole/api/" ⟨some "S", some "C", some 100, false⟩
        "stats/summary" Option.none false).result = .error invalidSessionExn ∧
    (get (fun _ _ => .ok (.session false 0 "" "" Option.none))
        (fun _ => .resp ⟨401, "Unauthorized", "", Option.none⟩)
        3 1 "http://pi.hole/api/" ⟨some "S", some "C", some 100, false⟩
        "stats/summary" Option.none false).log.sends.length = 1 :=
  C9_reauth_failure_propagates (fun _ _ => .ok (.session false 0 "" "" Option.none))
    (fun _ => .resp ⟨401, "Unauthorized", "", Option.none⟩)
    3 1 "http://pi.hole/api/" ⟨some "S", some "C", some 100, false⟩
    "stats/summary" Option.none false ⟨401, "Unauthorized", "", Option.none⟩
    rfl rfl rfl rfl (by omega) (fun k => ⟨0, "", "", Option.none, rfl⟩)

/-! ## C10 — exit without a live session performs a fresh login first -/

/-- C10: an `exit` issued while no live session exists (for instance a
second consecutive `exit`) first performs a full `_authenticate` — a
network login — through the lazy `_get_headers` accessor, and only then
issues the logout DELETE, which carries the freshly obtained session
headers: the "idempotent" second close establishes and then destroys a
fresh session rather than doing nothing. -/
theorem C10_exit_reauths_when_no_session (runs : Nat → Nat → AuthReply)
    (sendOut : Nat → SendReply) (maxR : Nat) (delay : ℚ) (base : String)
    (st : ConnState) (v : Int) (sid csrf : String) (m : Option String) (r : HResp)
    (hno : falsy st.session_id = true) (hmax : 1 ≤ maxR)
    (hauth : runs 0 1 = .ok (.session true v sid csrf m)) (hv : 0 < v)
    (hsend : sendOut 0 = .resp r) (h401 : r.status ≠ 401) :
    (exit runs sendOut maxR delay base st).log.auths
        = [⟨1, [], .success ⟨sid, csrf, v⟩⟩] ∧
    (exit runs sendOut maxR delay base st).log.sends
        = [⟨"DELETE", base ++ "auth", Option.none, Option.none, Option.none,
            Option.none, some sid, some csrf⟩] := by
  rw [exit, delete, doCall,
    getHeaders_auth_first_valid runs maxR delay 0 st v sid csrf m hmax
      (by rw [hno]; rfl) hauth hv]
  dsimp only
  rw [hsend]
  dsimp only
  rw [if_neg h401]
  exact ⟨rfl, rfl⟩

/-- C10 witness: a second `exit` on a cleared state logs in first and
sends the DELETE with the fresh session's headers. -/
theorem C10_witness :
    (exit (fun _ _ => .ok (.session true 300 "freshsid" "freshcsrf" Option.none))
        (fun _ => .resp ⟨204, "No Content", "", Option.none⟩)
        3 1 "http://pi.hole/api/"
        ⟨Option.none, Option.none, Option.none, true⟩).log.auths
      = [⟨1, [], .success ⟨"freshsid", "freshcsrf", 300⟩⟩] ∧
    (exit (fun _ _ => .ok (.session true 300 "freshsid" "freshcsrf" Option.none))
        (fun _ => .resp ⟨204, "No Content", "", Option.none⟩)
        3 1 "http://pi.hole/api/"
        ⟨Option.none, Option.none, Option.none, true⟩).log.sends
      = [⟨"DELETE", "http://pi.hole/api/" ++ "auth", Option.none, Option.none,
          Option.none, Option.none, some "freshsid", some "freshcsrf"⟩] :=
  C10_exit_reauths_when_no_session
    (fun _ _ => .ok (.session true 300 "freshsid" "freshcsrf" Option.none))
    (fun _ => .resp ⟨204, "No Content", "", Option.none⟩)
    3 1 "http://pi.hole/api/" ⟨Option.none, Option.none, Option.none, true⟩
    300 "freshsid" "freshcsrf" Option.none ⟨204, "No Content", "", Option.none⟩
    rfl (by omega) rfl (by omega) rfl (by decide)

end Pihole6
